import Mathlib

/-!
# Verification of the PDF question-answering backend

Shallow embedding of `app/services.py`, `app/main.py` and `app/keep_alive.py`
from the `pdf_query_backend` repository.  External effects (text extraction by
PyMuPDF, vector-store reads and writes, LLM invocation, the similarity
ranking, and `uuid.uuid4`) are modelled as explicit parameters or
spec-modelled functions; each handler is embedded as a pure function that
returns both its result and the list of external calls it issued, so that
claims about "no write happened" or "the search ran twice" are statements
about the returned call trace.
-/

namespace PdfQuery

/-- A chunk record as stored in the vector store: the chunk text together with
the metadata dictionary `{doc_id, source_filename, chunk_index}` built in
`index_pdf_text` (services.py lines 70-76). -/
structure Chunk where
  page_content : String
  doc_id : String
  source_filename : String
  chunk_index : Nat
deriving Repr, DecidableEq

/-! ## Generated document identifiers (`str(uuid.uuid4())`) -/

/-- Hexadecimal digit character, lowercase, as Python's `%x` renders it. -/
def hexDigit (n : Nat) : Char :=
  if n < 10 then Char.ofNat (48 + n) else Char.ofNat (87 + n)

/-- `n` rendered in lowercase hexadecimal, zero-padded to `width` digits
(most significant digit first). -/
def toHexPad : Nat → Nat → List Char
  | _, 0 => []
  | n, w + 1 => toHexPad (n / 16) w ++ [hexDigit (n % 16)]

/-- Modelled from the spec: `str(uuid.uuid4())` — the Python `uuid` library is
external to the repository; the spec describes the identifier as "a 128-bit
random value rendered as text", in the standard hyphenated
8-4-4-4-12 lowercase-hex form.  `r` is the 128-bit random draw. -/
def uuid4String (r : Nat) : String :=
  let ds := toHexPad (r % 2 ^ 128) 32
  String.mk (ds.take 8 ++ ['-'] ++ ((ds.drop 8).take 4) ++ ['-'] ++
    ((ds.drop 12).take 4) ++ ['-'] ++ ((ds.drop 16).take 4) ++ ['-'] ++ ds.drop 20)

/-! ## Indexing pipeline (`index_pdf_text`, services.py lines 50-89) -/

/-- External calls issued by the upload pipeline. -/
inductive UpCall where
  | extract : UpCall
  | storeWrite : List Chunk → UpCall
deriving Repr, DecidableEq

/-- The two exception classes `index_pdf_text` can raise: `ValueError`
(mapped to HTTP 400 by `upload_pdf`) and `RuntimeError` (mapped to 500). -/
inductive UpErr where
  | valueError : String → UpErr
  | runtimeError : String → UpErr
deriving Repr, DecidableEq

/-- The metadata-attaching loop of `index_pdf_text` (services.py lines 69-76):
`for i, text_chunk in enumerate(texts)` starting the counter at `i`. -/
def mkDocuments (doc_id filename : String) : Nat → List String → List Chunk
  | _, [] => []
  | i, t :: ts => ⟨t, doc_id, filename, i⟩ :: mkDocuments doc_id filename (i + 1) ts

/-- `index_pdf_text(pdf_bytes, filename)` (services.py lines 50-89).
`extractResult` stands for the outcome of `extract_text_from_pdf_bytes`
(`.error e` when PyMuPDF raised, `.ok raw` otherwise), `split` for
`split_text` (the external `CharacterTextSplitter`), `randBits` for the
128-bit draw inside `uuid.uuid4()`, and `writeOk` for whether
`vector_store.add_documents` succeeds.  Returns the result together with the
trace of external calls issued. -/
def index_pdf_text (extractResult : Except String String)
    (split : String → List String) (randBits : Nat) (filename : String)
    (writeOk : Bool) : Except UpErr String × List UpCall :=
  match extractResult with
  | .error e =>
      (.error (.valueError ("Failed to process PDF content: " ++ e)), [.extract])
  | .ok raw_text =>
      if raw_text = "" then
        (.error (.valueError "No text could be extracted from the PDF."), [.extract])
      else
        let texts := split raw_text
        if texts = [] then
          (.error (.valueError "Text splitting resulted in empty chunks."), [.extract])
        else
          let doc_id := uuid4String randBits
          let documents_with_metadata := mkDocuments doc_id filename 0 texts
          if writeOk then
            (.ok doc_id, [.extract, .storeWrite documents_with_metadata])
          else
            (.error (.runtimeError "Failed to index document in Astra DB"),
             [.extract, .storeWrite documents_with_metadata])

/-- Effect of a trace of upload calls on the vector-store contents:
`add_documents` appends the submitted chunk records. -/
def applyWrites (store : List Chunk) : List UpCall → List Chunk
  | [] => store
  | .extract :: tr => applyWrites store tr
  | .storeWrite docs :: tr => applyWrites (store ++ docs) tr

/-! ## HTTP upload endpoint (`upload_pdf`, main.py lines 36-76) -/

/-- Response of the `/upload` endpoint: either the 200 success body
`{document_id, filename, message}` or an `HTTPException(status, detail)`. -/
inductive UploadHttp where
  | success : String → String → String → UploadHttp
  | httpError : Nat → String → UploadHttp
deriving Repr, DecidableEq

/-- `upload_pdf` (main.py lines 36-76).  The content-type gate precedes the
`try` block; the empty-body `HTTPException(400)` raised inside the `try` is
caught by the generic `except Exception` clause and re-raised as a 500;
`ValueError` maps to 400 and `RuntimeError` to 500. -/
def upload_pdf (contentType : String) (pdfBytes : List Nat) (filename : String)
    (extractResult : Except String String) (split : String → List String)
    (randBits : Nat) (writeOk : Bool) : UploadHttp × List UpCall :=
  if contentType ≠ "application/pdf" then
    (.httpError 400 "Invalid file type. Only PDFs are allowed.", [])
  else if pdfBytes = [] then
    (.httpError 500
      "An unexpected error occurred during file processing: 400: Uploaded PDF file is empty.",
     [])
  else
    match index_pdf_text extractResult split randBits filename writeOk with
    | (.ok doc_id, tr) =>
        (.success doc_id filename "PDF processed and indexed successfully.", tr)
    | (.error (.valueError m), tr) => (.httpError 400 m, tr)
    | (.error (.runtimeError m), tr) => (.httpError 500 m, tr)

/-! ## Retrieval and answering (`answer_question`, services.py lines 94-145) -/

/-- Insert `c` into a list already sorted by descending `score`. -/
def insertDesc (score : Chunk → Nat) (c : Chunk) : List Chunk → List Chunk
  | [] => [c]
  | d :: ds => if score d < score c then c :: d :: ds else d :: insertDesc score c ds

/-- Sort chunks by descending `score` (insertion sort). -/
def sortDesc (score : Chunk → Nat) : List Chunk → List Chunk
  | [] => []
  | c :: cs => insertDesc score c (sortDesc score cs)

/-- Modelled from the spec: the external vector store's filtered similarity
search used through `retriever.get_relevant_documents` — "query the vector
store for the top-k (k=3) chunks whose embeddings are most similar to the
question's embedding, restricted to chunks whose metadata.document_id equals
the requested document_id".  `score` is the opaque similarity of each stored
chunk to the question; the store filters on the metadata key `doc_id` exactly
as the retriever's `search_kwargs` filter (services.py line 110) requests. -/
def similaritySearch (store : List Chunk) (doc_id : String)
    (score : Chunk → Nat) (k : Nat) : List Chunk :=
  (sortDesc score (store.filter (fun c => c.doc_id == doc_id))).take k

/-- Fixed message returned when the filtered search finds no chunks
(services.py line 121). -/
def notFoundMessage : String :=
  "I could not find any relevant information in the specified document to answer your question."

/-- Fixed message returned when the retrieval step raises
(services.py line 126). -/
def retrievalErrorMessage : String :=
  "An error occurred while trying to retrieve information for the specified document."

/-- Fallback answer used when the LLM response mapping has no `result` key
(services.py line 142). -/
def fallbackAnswer : String := "Sorry, I could not generate an answer."

/-- Python's `str.strip()` with no arguments: remove leading and trailing
whitespace characters. -/
def pyStrip (s : String) : String :=
  String.mk
    (((s.data.dropWhile Char.isWhitespace).reverse.dropWhile Char.isWhitespace).reverse)

/-- Outcome of the chat-model call `qa_chain({"query": question})`:
either it completes with a response mapping whose optional `result` field is
given, or it raises. -/
inductive LLMOutcome where
  | completes : Option String → LLMOutcome
  | raisesError : String → LLMOutcome
deriving Repr, DecidableEq

/-- External calls issued by the ask pipeline.  `search` records a filtered
similarity search (the requested document id, the question, and the chunks it
returned); `unfilteredSearch` a similarity search without a metadata filter;
`llmCall` a chat-model invocation with its retrieved context. -/
inductive ExtCall where
  | search : String → String → List Chunk → ExtCall
  | unfilteredSearch : String → List Chunk → ExtCall
  | llmCall : String → List Chunk → ExtCall
deriving Repr, DecidableEq

/-- The chunks an external call returned to, or received from, the service. -/
def ExtCall.chunks : ExtCall → List Chunk
  | .search _ _ cs => cs
  | .unfilteredSearch _ cs => cs
  | .llmCall _ cs => cs

/-- What `answer_question` does with its caller: either it returns a string
normally (HTTP 200 via `/ask`), or it raises `RuntimeError` (HTTP 500). -/
inductive AskOutcome where
  | answer : String → AskOutcome
  | runtimeError : String → AskOutcome
deriving Repr, DecidableEq

/-- `answer_question(doc_id, question)` (services.py lines 94-145).
`searchFails` stands for the retrieval step raising (filter unsupported or DB
error, caught at lines 123-126); `llm` for the outcome of
`qa_chain({"query": question})`.  The preliminary
`retriever.get_relevant_documents(question)` call and the retrieval performed
inside the `RetrievalQA` chain both query the same retriever, so the success
path records two `search` calls before the `llmCall`. -/
def answer_question (store : List Chunk) (score : Chunk → Nat)
    (searchFails : Bool) (llm : LLMOutcome) (doc_id question : String) :
    AskOutcome × List ExtCall :=
  if searchFails then
    (.answer retrievalErrorMessage, [.search doc_id question []])
  else
    let relevant_docs := similaritySearch store doc_id score 3
    if relevant_docs.isEmpty then
      (.answer notFoundMessage, [.search doc_id question relevant_docs])
    else
      match llm with
      | .completes res =>
          (.answer (pyStrip (res.getD fallbackAnswer)),
           [.search doc_id question relevant_docs,
            .search doc_id question relevant_docs,
            .llmCall question relevant_docs])
      | .raisesError msg =>
          (.runtimeError ("Failed to get answer from LLM: " ++ msg),
           [.search doc_id question relevant_docs,
            .search doc_id question relevant_docs,
            .llmCall question relevant_docs])

/-! ## Keep-alive loop (`keep_alive.py`) -/

/-- `KEEP_ALIVE_INTERVAL_SECONDS = 14 * 60` (keep_alive.py line 11). -/
def KEEP_ALIVE_INTERVAL_SECONDS : Nat := 14 * 60

/-- The httpx client timeout, `timeout=30.0` seconds (keep_alive.py line 17). -/
def KEEP_ALIVE_TIMEOUT_SECONDS : Nat := 30

/-- `SELF_KEEP_ALIVE_TARGET_URL` (keep_alive.py line 10): the Render external
URL with `/` appended when the environment variable is set, else the local
root URL. -/
def selfKeepAliveTargetUrl (renderExternalUrl : Option String) : String :=
  match renderExternalUrl with
  | some u => u ++ "/"
  | none => "http://localhost:8000/"

/-- Outcome of one self-ping GET: every case is caught and logged inside the
loop body (keep_alive.py lines 19-29). -/
inductive PingOutcome where
  | success : Nat → PingOutcome
  | requestError : PingOutcome
  | httpStatusError : Nat → PingOutcome
  | otherError : PingOutcome
deriving Repr, DecidableEq

/-- Observable actions of the keep-alive loop: a GET to the target URL with
the client timeout, or an `asyncio.sleep` for the interval. -/
inductive KAAction where
  | ping : String → Nat → PingOutcome → KAAction
  | sleepFor : Nat → KAAction
deriving Repr, DecidableEq

/-- `_self_keep_alive_ping_task_loop` (keep_alive.py lines 15-37), unrolled
against a finite script of iteration events: each script entry gives the
outcome of that iteration's ping and whether the task is cancelled during the
following `asyncio.sleep`.  Each iteration issues the GET first, then sleeps;
a cancellation observed during the sleep breaks out of the loop. -/
def pingLoopTrace (target : String) :
    List (PingOutcome × Bool) → List KAAction
  | [] => []
  | (o, cancelledInSleep) :: rest =>
      .ping target KEEP_ALIVE_TIMEOUT_SECONDS o ::
      .sleepFor KEEP_ALIVE_INTERVAL_SECONDS ::
      (if cancelledInSleep then [] else pingLoopTrace target rest)

/-- Number of loop iterations actually run for a given script: the loop stops
after the iteration whose sleep is cancelled. -/
def iterationsRun : List (PingOutcome × Bool) → Nat
  | [] => 0
  | (_, cancelledInSleep) :: rest =>
      1 + (if cancelledInSleep then 0 else iterationsRun rest)

/-- Predicate on ask-pipeline calls: is it a filtered similarity search? -/
def isSearchCall : ExtCall → Bool
  | .search _ _ _ => true
  | _ => false

/-- Predicate on ask-pipeline calls: is it a chat-model invocation? -/
def isLLMCall : ExtCall → Bool
  | .llmCall _ _ => true
  | _ => false

/-- Predicate on upload-pipeline calls: is it a text extraction? -/
def isExtractCall : UpCall → Bool
  | .extract => true
  | _ => false

/-- Predicate on upload-pipeline calls: is it a vector-store write? -/
def isWriteCall : UpCall → Bool
  | .storeWrite _ => true
  | _ => false

/-! ## Helper lemmas -/

lemma mem_insertDesc {score : Chunk → Nat} {c x : Chunk} {l : List Chunk}
    (h : c ∈ insertDesc score x l) : c = x ∨ c ∈ l := by
  induction l with
  | nil => simpa [insertDesc] using h
  | cons d ds ih =>
      simp only [insertDesc] at h
      by_cases hlt : score d < score x
      · simp only [if_pos hlt, List.mem_cons] at h
        rcases h with h | h | h
        · exact Or.inl h
        · exact Or.inr (by simp [h])
        · exact Or.inr (by simp [h])
      · simp only [if_neg hlt, List.mem_cons] at h
        rcases h with h | h
        · exact Or.inr (by simp [h])
        · rcases ih h with h | h
          · exact Or.inl h
          · exact Or.inr (by simp [h])

lemma mem_sortDesc {score : Chunk → Nat} {c : Chunk} {l : List Chunk}
    (h : c ∈ sortDesc score l) : c ∈ l := by
  induction l with
  | nil => simp [sortDesc] at h
  | cons d ds ih =>
      simp only [sortDesc] at h
      rcases mem_insertDesc h with h | h
      · simp [h]
      · exact List.mem_cons_of_mem _ (ih h)

lemma mem_similaritySearch {store : List Chunk} {doc_id : String}
    {score : Chunk → Nat} {k : Nat} {c : Chunk}
    (h : c ∈ similaritySearch store doc_id score k) :
    c ∈ store ∧ c.doc_id = doc_id := by
  have h1 : c ∈ sortDesc score (store.filter (fun c => c.doc_id == doc_id)) :=
    List.mem_of_mem_take h
  have h2 := mem_sortDesc h1
  have h3 := List.mem_filter.mp h2
  exact ⟨h3.1, by simpa using h3.2⟩

lemma mkDocuments_map_content (doc_id filename : String) (i : Nat)
    (ts : List String) :
    (mkDocuments doc_id filename i ts).map Chunk.page_content = ts := by
  induction ts generalizing i with
  | nil => simp [mkDocuments]
  | cons t ts ih => simp [mkDocuments, ih]

lemma mkDocuments_length (doc_id filename : String) (i : Nat)
    (ts : List String) :
    (mkDocuments doc_id filename i ts).length = ts.length := by
  induction ts generalizing i with
  | nil => simp [mkDocuments]
  | cons t ts ih => simp [mkDocuments, ih]

lemma mkDocuments_get_index (doc_id filename : String) (i : Nat)
    (ts : List String) (j : Nat)
    (h : j < (mkDocuments doc_id filename i ts).length) :
    ((mkDocuments doc_id filename i ts).get ⟨j, h⟩).chunk_index = i + j := by
  induction ts generalizing i j with
  | nil => simp [mkDocuments] at h
  | cons t ts ih =>
      cases j with
      | zero => simp [mkDocuments]
      | succ j =>
          have h' : j < (mkDocuments doc_id filename (i + 1) ts).length := by
            simpa [mkDocuments] using h
          have hrec := ih (i + 1) j h'
          simp only [List.get_eq_getElem] at hrec ⊢
          simp only [mkDocuments, List.getElem_cons_succ]
          omega

lemma mem_mkDocuments {doc_id filename : String} {i : Nat} {ts : List String}
    {c : Chunk} (h : c ∈ mkDocuments doc_id filename i ts) :
    c.doc_id = doc_id ∧ c.source_filename = filename := by
  induction ts generalizing i with
  | nil => simp [mkDocuments] at h
  | cons t ts ih =>
      simp only [mkDocuments, List.mem_cons] at h
      rcases h with h | h
      · simp [h]
      · exact ih h

lemma toHexPad_length (n w : Nat) : (toHexPad n w).length = w := by
  induction w generalizing n with
  | zero => simp [toHexPad]
  | succ w ih => simp [toHexPad, ih]

lemma uuid4String_length (r : Nat) : (uuid4String r).length = 36 := by
  simp only [uuid4String, String.length, String.mk]
  simp [List.length_take, List.length_drop, toHexPad_length]

lemma answer_question_trace_eq (store : List Chunk) (score : Chunk → Nat)
    (searchFails : Bool) (llm : LLMOutcome) (doc_id question : String) :
    (answer_question store score searchFails llm doc_id question).2 =
      if searchFails then [.search doc_id question []]
      else if (similaritySearch store doc_id score 3).isEmpty then
        [.search doc_id question (similaritySearch store doc_id score 3)]
      else
        [.search doc_id question (similaritySearch store doc_id score 3),
         .search doc_id question (similaritySearch store doc_id score 3),
         .llmCall question (similaritySearch store doc_id score 3)] := by
  cases hf : searchFails with
  | true => simp [answer_question, hf]
  | false =>
      by_cases he : (similaritySearch store doc_id score 3).isEmpty = true
      · simp [answer_question, hf, he]
      · cases llm <;> simp [answer_question, hf, he]

lemma index_pdf_text_trace_error (e : String) (split : String → List String)
    (randBits : Nat) (filename : String) (writeOk : Bool) :
    (index_pdf_text (.error e) split randBits filename writeOk).2
      = [.extract] := by
  simp [index_pdf_text]

lemma index_pdf_text_trace_ok (raw : String) (split : String → List String)
    (randBits : Nat) (filename : String) (writeOk : Bool) :
    (index_pdf_text (.ok raw) split randBits filename writeOk).2 =
      if raw = "" then [.extract]
      else if split raw = [] then [.extract]
      else [.extract,
            .storeWrite (mkDocuments (uuid4String randBits) filename 0 (split raw))] := by
  by_cases hraw : raw = ""
  · simp [index_pdf_text, hraw]
  · by_cases hsplit : split raw = []
    · simp [index_pdf_text, hraw, hsplit]
    · cases writeOk <;> simp [index_pdf_text, hraw, hsplit]

lemma pingLoopTrace_length (target : String)
    (script : List (PingOutcome × Bool)) :
    (pingLoopTrace target script).length = 2 * iterationsRun script := by
  induction script with
  | nil => simp [pingLoopTrace, iterationsRun]
  | cons e rest ih =>
      obtain ⟨o, c⟩ := e
      cases c with
      | false =>
          simp [pingLoopTrace, iterationsRun, ih]
          omega
      | true =>
          simp [pingLoopTrace, iterationsRun]

lemma pingLoopTrace_get (target : String) (script : List (PingOutcome × Bool))
    (i : Nat) (a : KAAction)
    (ha : (pingLoopTrace target script).get? i = some a) :
    (i % 2 = 0 → ∃ o, a = .ping target KEEP_ALIVE_TIMEOUT_SECONDS o) ∧
    (i % 2 = 1 → a = .sleepFor KEEP_ALIVE_INTERVAL_SECONDS) := by
  induction script generalizing i with
  | nil => simp [pingLoopTrace] at ha
  | cons e rest ih =>
      obtain ⟨o, c⟩ := e
      match i with
      | 0 =>
          simp only [pingLoopTrace, List.get?_cons_zero, Option.some_inj] at ha
          subst ha
          exact ⟨fun _ => ⟨o, rfl⟩, fun h => by omega⟩
      | 1 =>
          simp only [pingLoopTrace, List.get?_cons_succ, List.get?_cons_zero,
            Option.some_inj] at ha
          subst ha
          exact ⟨fun h => by omega, fun _ => rfl⟩
      | (j + 2) =>
          have ha' : (if c then ([] : List KAAction)
              else pingLoopTrace target rest).get? j = some a := by
            simpa only [pingLoopTrace, List.get?_cons_succ] using ha
          cases c with
          | true => simp at ha'
          | false =>
              simp only [if_neg Bool.false_ne_true] at ha'
              have hrec := ih j ha'
              constructor
              · intro h
                exact hrec.1 (by omega)
              · intro h
                exact hrec.2 (by omega)

/-! ## Claim theorems -/

/-- C1: every chunk returned by the filtered similarity search during an ask
operation — and hence every chunk any external call of `answer_question`
handles — has metadata `doc_id` equal to the requested document id, so for
any distinct identifier `B` the answer never involves a chunk whose
`doc_id` is `B`. -/
theorem ask_filter_isolation (store : List Chunk) (score : Chunk → Nat)
    (searchFails : Bool) (llm : LLMOutcome) (doc_id question : String)
    (call : ExtCall) (c : Chunk)
    (hcall : call ∈ (answer_question store score searchFails llm doc_id question).2)
    (hc : c ∈ call.chunks) :
    c.doc_id = doc_id ∧ ∀ B, B ≠ doc_id → c.doc_id ≠ B := by
  have hdoc : c.doc_id = doc_id := by
    have hmem : c ∈ similaritySearch store doc_id score 3 := by
      cases hf : searchFails with
      | true =>
          simp [answer_question, hf] at hcall
          subst hcall
          simp [ExtCall.chunks] at hc
      | false =>
          by_cases he : (similaritySearch store doc_id score 3).isEmpty = true
          · simp [answer_question, hf, he] at hcall
            subst hcall
            simpa [ExtCall.chunks] using hc
          · cases llm with
            | completes res =>
                simp [answer_question, hf, he] at hcall
                rcases hcall with h | h <;> subst h <;>
                  simpa [ExtCall.chunks] using hc
            | raisesError msg =>
                simp [answer_question, hf, he] at hcall
                rcases hcall with h | h <;> subst h <;>
                  simpa [ExtCall.chunks] using hc
    exact (mem_similaritySearch hmem).2
  refine ⟨hdoc, fun B hB hcB => hB ?_⟩
  rw [hdoc] at hcB
  exact hcB.symm

/-- C1 witness: concrete run with one indexed chunk. -/
theorem ask_filter_isolation_witness :
    ExtCall.search "A" "q" [⟨"x", "A", "f", 0⟩]
        ∈ (answer_question [⟨"x", "A", "f", 0⟩] (fun _ => 0) false
            (.completes (some "hi")) "A" "q").2 ∧
    (⟨"x", "A", "f", 0⟩ : Chunk) ∈ (ExtCall.search "A" "q" [⟨"x", "A", "f", 0⟩]).chunks ∧
    (⟨"x", "A", "f", 0⟩ : Chunk).doc_id = "A" :=
  ⟨by decide, by decide,
   (ask_filter_isolation [⟨"x", "A", "f", 0⟩] (fun _ => 0) false
     (.completes (some "hi")) "A" "q" (.search "A" "q" [⟨"x", "A", "f", 0⟩])
     ⟨"x", "A", "f", 0⟩ (by decide) (by decide)).1⟩

/-- C2: a PDF whose extraction yields the empty string makes the upload fail
with HTTP 400 ("No text could be extracted from the PDF."), no vector-store
write is issued, and the store contents are unchanged. -/
theorem upload_no_text_400_no_write (pdfBytes : List Nat) (filename : String)
    (split : String → List String) (randBits : Nat) (writeOk : Bool)
    (store : List Chunk) (hbytes : pdfBytes ≠ []) :
    (upload_pdf "application/pdf" pdfBytes filename (.ok "") split randBits
        writeOk).1 = .httpError 400 "No text could be extracted from the PDF." ∧
    (∀ docs, UpCall.storeWrite docs ∉
        (upload_pdf "application/pdf" pdfBytes filename (.ok "") split randBits
          writeOk).2) ∧
    applyWrites store
        (upload_pdf "application/pdf" pdfBytes filename (.ok "") split randBits
          writeOk).2 = store := by
  have hrun : upload_pdf "application/pdf" pdfBytes filename (.ok "") split
      randBits writeOk
      = (.httpError 400 "No text could be extracted from the PDF.", [.extract]) := by
    simp [upload_pdf, index_pdf_text, hbytes]
  refine ⟨by rw [hrun], fun docs hmem => ?_, by rw [hrun]; simp [applyWrites]⟩
  rw [hrun] at hmem
  simp at hmem

/-- C2 witness: a one-byte upload whose extraction result is the empty
string. -/
theorem upload_no_text_400_no_write_witness :
    ([0] : List Nat) ≠ [] ∧
    (upload_pdf "application/pdf" [0] "f.pdf" (.ok "") (fun _ => []) 0 true).1
      = .httpError 400 "No text could be extracted from the PDF." :=
  ⟨by decide,
   (upload_no_text_400_no_write [0] "f.pdf" (fun _ => []) 0 true []
     (by decide)).1⟩

/-- C3: when the filtered search succeeds but returns zero chunks for the
requested document id, `answer_question` returns the fixed not-found message
and issues no chat-model call. -/
theorem ask_no_chunks_not_found (store : List Chunk) (score : Chunk → Nat)
    (llm : LLMOutcome) (doc_id question : String)
    (h : similaritySearch store doc_id score 3 = []) :
    (answer_question store score false llm doc_id question).1
      = .answer notFoundMessage ∧
    ∀ q ctx, ExtCall.llmCall q ctx ∉
        (answer_question store score false llm doc_id question).2 := by
  have he : (similaritySearch store doc_id score 3).isEmpty = true := by
    simp [h]
  constructor
  · simp [answer_question, he]
  · intro q ctx hmem
    simp [answer_question, he] at hmem

/-- C3 witness: empty store, hence zero matching chunks. -/
theorem ask_no_chunks_not_found_witness :
    similaritySearch [] "A" (fun _ => 0) 3 = [] ∧
    (answer_question [] (fun _ => 0) false (.completes (some "hi")) "A" "q").1
      = .answer notFoundMessage :=
  ⟨by decide,
   (ask_no_chunks_not_found [] (fun _ => 0) (.completes (some "hi")) "A" "q"
     (by decide)).1⟩

/-- C4: when the filtered retrieval step raises, `answer_question` returns
the fixed retrieval-error message to the caller and issues neither an
unfiltered similarity search nor a chat-model call. -/
theorem ask_search_failure_surfaced (store : List Chunk) (score : Chunk → Nat)
    (llm : LLMOutcome) (doc_id question : String) :
    (answer_question store score true llm doc_id question).1
      = .answer retrievalErrorMessage ∧
    (∀ q res, ExtCall.unfilteredSearch q res ∉
        (answer_question store score true llm doc_id question).2) ∧
    (∀ q ctx, ExtCall.llmCall q ctx ∉
        (answer_question store score true llm doc_id question).2) := by
  refine ⟨by simp [answer_question], ?_, ?_⟩ <;>
    intro q l hmem <;> simp [answer_question] at hmem

/-- C5 counterexample: on a successful ask operation the filtered similarity
search is executed twice — once as the preliminary emptiness check and once
inside the `RetrievalQA` chain — so "the similarity search is never executed
more than once" is false at this concrete input. -/
theorem ask_single_search_counterexample :
    (answer_question [⟨"x", "A", "f", 0⟩] (fun _ => 0) false
        (.completes (some "hi")) "A" "q").2.countP isSearchCall = 2 ∧
    ¬ (answer_question [⟨"x", "A", "f", 0⟩] (fun _ => 0) false
        (.completes (some "hi")) "A" "q").2.countP isSearchCall ≤ 1 := by
  decide

/-- C5 (amended): per logical request, text extraction is attempted exactly
once and the vector-store write and the chat-model invocation at most once;
the similarity search, however, is executed twice on an ask operation whose
preliminary check finds chunks (the check plus the retrieval inside the QA
chain) and once otherwise. -/
theorem external_call_counts (store : List Chunk) (score : Chunk → Nat)
    (searchFails : Bool) (llm : LLMOutcome) (doc_id question : String)
    (extractResult : Except String String) (split : String → List String)
    (randBits : Nat) (filename : String) (writeOk : Bool) :
    (answer_question store score searchFails llm doc_id question).2.countP
        isLLMCall ≤ 1 ∧
    (answer_question store score searchFails llm doc_id question).2.countP
        isSearchCall
      = (if searchFails then 1
         else if (similaritySearch store doc_id score 3).isEmpty then 1 else 2) ∧
    (index_pdf_text extractResult split randBits filename writeOk).2.countP
        isExtractCall = 1 ∧
    (index_pdf_text extractResult split randBits filename writeOk).2.countP
        isWriteCall ≤ 1 := by
  refine ⟨?_, ?_, ?_, ?_⟩
  · rw [answer_question_trace_eq]
    split_ifs <;>
      simp [List.countP_cons, List.countP_nil, isLLMCall, isSearchCall]
  · rw [answer_question_trace_eq]
    split_ifs <;>
      simp [List.countP_cons, List.countP_nil, isLLMCall, isSearchCall]
  · cases extractResult with
    | error e =>
        rw [index_pdf_text_trace_error]
        simp [List.countP_cons, List.countP_nil, isExtractCall]
    | ok raw =>
        rw [index_pdf_text_trace_ok]
        split_ifs <;>
          simp [List.countP_cons, List.countP_nil, isExtractCall, isWriteCall]
  · cases extractResult with
    | error e =>
        rw [index_pdf_text_trace_error]
        simp [List.countP_cons, List.countP_nil, isWriteCall]
    | ok raw =>
        rw [index_pdf_text_trace_ok]
        split_ifs <;>
          simp [List.countP_cons, List.countP_nil, isExtractCall, isWriteCall]

/-- C6: a valid non-empty extraction indexed with a successful store write
returns the rendering of the fresh 128-bit identifier (a 36-character
hyphenated string), and every chunk record written carries that identifier
and the source filename in its metadata. -/
theorem index_success_doc_id (raw : String) (split : String → List String)
    (randBits : Nat) (filename : String)
    (hraw : raw ≠ "") (hsplit : split raw ≠ []) :
    (index_pdf_text (.ok raw) split randBits filename true).1
      = .ok (uuid4String randBits) ∧
    (uuid4String randBits).length = 36 ∧
    ∀ docs, UpCall.storeWrite docs
        ∈ (index_pdf_text (.ok raw) split randBits filename true).2 →
      ∀ c ∈ docs, c.doc_id = uuid4String randBits ∧
        c.source_filename = filename := by
  have hrun : index_pdf_text (.ok raw) split randBits filename true
      = (.ok (uuid4String randBits),
         [.extract,
          .storeWrite (mkDocuments (uuid4String randBits) filename 0 (split raw))]) := by
    simp [index_pdf_text, hraw, hsplit]
  refine ⟨by rw [hrun], uuid4String_length randBits, ?_⟩
  intro docs hmem c hc
  rw [hrun] at hmem
  simp at hmem
  subst hmem
  exact mem_mkDocuments hc

/-- C6 witness: a one-chunk upload. -/
theorem index_success_doc_id_witness :
    ("t" : String) ≠ "" ∧ (fun _ : String => ["t"]) "t" ≠ [] ∧
    (index_pdf_text (.ok "t") (fun _ => ["t"]) 0 "f.pdf" true).1
      = .ok (uuid4String 0) :=
  ⟨by decide, by decide,
   (index_success_doc_id "t" (fun _ => ["t"]) 0 "f.pdf" (by decide)
     (by decide)).1⟩

/-- C7: every batch submitted to the store write lists the split chunks in
their original order — the written chunk texts equal the splitter's output
list, none dropped — and chunk `j` carries `chunk_index = j`, strictly
increasing from 0. -/
theorem index_chunk_order (raw : String) (split : String → List String)
    (randBits : Nat) (filename : String) (writeOk : Bool) (docs : List Chunk)
    (hmem : UpCall.storeWrite docs
      ∈ (index_pdf_text (.ok raw) split randBits filename writeOk).2) :
    docs.map Chunk.page_content = split raw ∧
    docs.length = (split raw).length ∧
    ∀ j (h : j < docs.length), (docs.get ⟨j, h⟩).chunk_index = j := by
  rw [index_pdf_text_trace_ok] at hmem
  by_cases hraw : raw = ""
  · simp [hraw] at hmem
  · by_cases hsplit : split raw = []
    · simp [hraw, hsplit] at hmem
    · simp [hraw, hsplit] at hmem
      subst hmem
      refine ⟨mkDocuments_map_content _ _ _ _, mkDocuments_length _ _ _ _, ?_⟩
      intro j h
      simpa using mkDocuments_get_index (uuid4String randBits) filename 0
        (split raw) j h

/-- C7 witness: a two-chunk upload, checking the recorded batch. -/
theorem index_chunk_order_witness :
    UpCall.storeWrite (mkDocuments (uuid4String 0) "f.pdf" 0 ["a", "b"])
        ∈ (index_pdf_text (.ok "t") (fun _ => ["a", "b"]) 0 "f.pdf" true).2 ∧
    (mkDocuments (uuid4String 0) "f.pdf" 0 ["a", "b"]).map Chunk.page_content
      = ["a", "b"] :=
  ⟨by decide,
   (index_chunk_order "t" (fun _ => ["a", "b"]) 0 "f.pdf" true
     (mkDocuments (uuid4String 0) "f.pdf" 0 ["a", "b"]) (by decide)).1⟩

/-- C8: a `/upload` request whose content type is not `application/pdf` is
rejected with HTTP 400 before anything runs: no success response (hence no
document_id) and an empty external-call trace (hence no store write). -/
theorem upload_bad_content_type (contentType : String) (pdfBytes : List Nat)
    (filename : String) (extractResult : Except String String)
    (split : String → List String) (randBits : Nat) (writeOk : Bool)
    (h : contentType ≠ "application/pdf") :
    (upload_pdf contentType pdfBytes filename extractResult split randBits
        writeOk).1 = .httpError 400 "Invalid file type. Only PDFs are allowed." ∧
    (∀ id fn msg, (upload_pdf contentType pdfBytes filename extractResult split
        randBits writeOk).1 ≠ .success id fn msg) ∧
    (upload_pdf contentType pdfBytes filename extractResult split randBits
        writeOk).2 = [] := by
  have hrun : upload_pdf contentType pdfBytes filename extractResult split
      randBits writeOk
      = (.httpError 400 "Invalid file type. Only PDFs are allowed.", []) := by
    simp [upload_pdf, h]
  refine ⟨by rw [hrun], ?_, by rw [hrun]⟩
  intro id fn msg
  rw [hrun]
  simp

/-- C8 witness: the spec's concrete scenario, content type `text/plain`. -/
theorem upload_bad_content_type_witness :
    ("text/plain" : String) ≠ "application/pdf" ∧
    (upload_pdf "text/plain" [0] "f.txt" (.ok "t") (fun _ => ["t"]) 0 true).1
      = .httpError 400 "Invalid file type. Only PDFs are allowed." :=
  ⟨by decide,
   (upload_bad_content_type "text/plain" [0] "f.txt" (.ok "t")
     (fun _ => ["t"]) 0 true (by decide)).1⟩

/-- C9 counterexample: the first action of the keep-alive loop is the
self-ping, not the 14-minute sleep — the loop body pings first and sleeps
afterwards, so the claimed sleep-then-ping order is false on the very first
iteration. -/
theorem keep_alive_sleep_first_counterexample :
    pingLoopTrace "http://localhost:8000/" [(.success 200, true)]
      = [.ping "http://localhost:8000/" KEEP_ALIVE_TIMEOUT_SECONDS (.success 200),
         .sleepFor KEEP_ALIVE_INTERVAL_SECONDS] ∧
    (pingLoopTrace "http://localhost:8000/" [(.success 200, true)]).head?
      ≠ some (KAAction.sleepFor KEEP_ALIVE_INTERVAL_SECONDS) := by
  decide

/-- C9 (amended): in every iteration the loop first issues one GET to the
service's own root URL with the 30-second client timeout and then sleeps for
the fixed 14-minute interval (even positions of the trace are pings, odd
positions sleeps, so the first self-ping precedes any sleep); ping errors
never propagate past the loop, and cancellation, observed at the sleep
point, terminates the loop at the end of that iteration. -/
theorem keep_alive_loop_shape (renderExternalUrl : Option String)
    (script : List (PingOutcome × Bool)) (i : Nat) (a : KAAction)
    (ha : (pingLoopTrace (selfKeepAliveTargetUrl renderExternalUrl)
      script).get? i = some a) :
    (i % 2 = 0 → ∃ o, a = .ping (selfKeepAliveTargetUrl renderExternalUrl)
        KEEP_ALIVE_TIMEOUT_SECONDS o) ∧
    (i % 2 = 1 → a = .sleepFor KEEP_ALIVE_INTERVAL_SECONDS) ∧
    (pingLoopTrace (selfKeepAliveTargetUrl renderExternalUrl) script).length
      = 2 * iterationsRun script := by
  have h := pingLoopTrace_get (selfKeepAliveTargetUrl renderExternalUrl)
    script i a ha
  exact ⟨h.1, h.2, pingLoopTrace_length _ script⟩

/-- C9 (amended) witness: a one-iteration run in the local-URL
configuration. -/
theorem keep_alive_loop_shape_witness :
    (pingLoopTrace (selfKeepAliveTargetUrl none)
        [(.success 200, false)]).get? 0
      = some (.ping "http://localhost:8000/" KEEP_ALIVE_TIMEOUT_SECONDS
          (.success 200)) ∧
    (pingLoopTrace (selfKeepAliveTargetUrl none) [(.success 200, false)]).length
      = 2 * iterationsRun [(.success 200, false)] :=
  ⟨by decide,
   (keep_alive_loop_shape none [(.success 200, false)] 0
     (.ping "http://localhost:8000/" KEEP_ALIVE_TIMEOUT_SECONDS (.success 200))
     (by decide)).2.2⟩

/-- C10: when chunks are found and the chat model completes without a
`result` field in its response mapping, `answer_question` returns the fixed
fallback string (trimming is the identity on it) instead of failing. -/
theorem ask_missing_result_fallback (store : List Chunk) (score : Chunk → Nat)
    (doc_id question : String)
    (h : (similaritySearch store doc_id score 3).isEmpty = false) :
    (answer_question store score false (.completes none) doc_id question).1
      = .answer "Sorry, I could not generate an answer." := by
  simp [answer_question, h]
  decide

/-- C10 witness: one matching chunk, LLM response without a `result` key. -/
theorem ask_missing_result_fallback_witness :
    (similaritySearch [⟨"x", "A", "f", 0⟩] "A" (fun _ => 0) 3).isEmpty = false ∧
    (answer_question [⟨"x", "A", "f", 0⟩] (fun _ => 0) false (.completes none)
        "A" "q").1 = .answer "Sorry, I could not generate an answer." :=
  ⟨by decide,
   ask_missing_result_fallback [⟨"x", "A", "f", 0⟩] (fun _ => 0) "A" "q"
     (by decide)⟩

end PdfQuery
